import Mathlib

/-!
Verification development for the chat message relay handler
(`app/(chat)/api/chat/route.ts` and its draft variants).

The handler is shallowly embedded: JavaScript values that the handler
inspects are modelled by `JVal`, message content parts by `Part`, the
backing store by `DB`, and the `POST` / `DELETE` handlers by pure Lean
functions over those types.  External collaborators (the query layer,
the auth session, the entitlement table, the outbound fetch) are passed
in as explicit inputs or modelled from their documented contracts.
-/

set_option autoImplicit false

namespace TlcChat

/-! ## JavaScript-ish JSON values -/

/-- A parsed JSON value as JavaScript sees it (`res.json()`). -/
inductive JVal : Type where
  | jnull : JVal
  | jbool (b : Bool) : JVal
  | jnum (n : Int) : JVal
  | jstr (s : String) : JVal
  | jarr (elems : List JVal) : JVal
  | jobj (fields : List (String × JVal)) : JVal

/-- Escape a string for JSON output (quote and backslash only; the
inputs exercised here contain no control characters). -/
def escapeJsonChar (c : Char) : String :=
  if c = '"' then "\\\"" else if c = '\\' then "\\\\" else String.singleton c

def escapeJson (s : String) : String :=
  String.join (s.toList.map escapeJsonChar)

mutual

/-- `JSON.stringify` on a parsed value. -/
def stringify : JVal → String
  | .jnull => "null"
  | .jbool b => cond b "true" "false"
  | .jnum n => toString n
  | .jstr s => "\"" ++ escapeJson s ++ "\""
  | .jarr xs => "[" ++ stringifyElems xs ++ "]"
  | .jobj fs => "\x7b" ++ stringifyFields fs ++ "\x7d"

def stringifyElems : List JVal → String
  | [] => ""
  | [x] => stringify x
  | x :: y :: xs => stringify x ++ "," ++ stringifyElems (y :: xs)

def stringifyFields : List (String × JVal) → String
  | [] => ""
  | [(k, v)] => "\"" ++ escapeJson k ++ "\":" ++ stringify v
  | (k, v) :: f :: fs =>
      "\"" ++ escapeJson k ++ "\":" ++ stringify v ++ "," ++ stringifyFields (f :: fs)

end

mutual

/-- One array element under `Array.prototype.join`: `null` renders empty. -/
def jsElemStr : JVal → String
  | .jnull => ""
  | .jbool b => cond b "true" "false"
  | .jnum n => toString n
  | .jstr s => s
  | .jarr xs => jsArrJoin xs
  | .jobj _ => "[object Object]"

def jsArrJoin : List JVal → String
  | [] => ""
  | [x] => jsElemStr x
  | x :: y :: xs => jsElemStr x ++ "," ++ jsArrJoin (y :: xs)

end

/-- JavaScript `String(v)` on a parsed JSON value. -/
def jsToString : JVal → String
  | .jnull => "null"
  | .jbool b => cond b "true" "false"
  | .jnum n => toString n
  | .jstr s => s
  | .jarr xs => jsArrJoin xs
  | .jobj _ => "[object Object]"

/-- Property access `data[k]`: `none` models JavaScript `undefined`. -/
def getKey : JVal → String → Option JVal
  | .jobj fs, k => fs.lookup k
  | _, _ => none

/-- A value is nullish (skipped by `??`) when absent or `null`. -/
def nullish : Option JVal → Bool
  | none => true
  | some .jnull => true
  | some _ => false

/-- `a ?? b ?? ...`: first non-nullish value in the chain. -/
def coalesce : List (Option JVal) → Option JVal
  | [] => none
  | v :: vs => if nullish v then coalesce vs else v

/-! ## String helpers mirroring the JavaScript used by the handler -/

/-- Substring occurrence over character lists. -/
def containsSub (needle : List Char) : List Char → Bool
  | [] => needle.isEmpty
  | c :: t => needle.isPrefixOf (c :: t) || containsSub needle t

/-- `s.includes(sub)`. -/
def jsIncludes (s sub : String) : Bool :=
  containsSub sub.toList s.toList

/-- The ASCII whitespace matched by the `\s` class and `trim()` on the
inputs this handler sees. -/
def isWsChar (c : Char) : Bool :=
  c = ' ' || c = '\t' || c = '\n' || c = '\r'

/-- Accumulator pass collecting maximal non-whitespace runs. -/
def wordsAux : List Char → List Char → List String
  | [], acc => if acc.isEmpty then [] else [String.mk acc.reverse]
  | c :: cs, acc =>
      if isWsChar c then
        if acc.isEmpty then wordsAux cs []
        else String.mk acc.reverse :: wordsAux cs []
      else wordsAux cs (c :: acc)

/-- `s.trim().split(/\s+/)` as the handler consumes it: the maximal
non-whitespace runs of `s`, in order (trimming first and splitting on
whitespace runs is the same as collecting the non-whitespace runs;
the all-whitespace case yields `[""]` in JavaScript and `[]` here,
which agree after the join against the empty-title fallback). -/
def splitWords (s : String) : List String :=
  wordsAux s.toList []

def joinWords (ws : List String) : String :=
  String.intercalate " " ws

/-! ## Message content parts -/

/-- One entry of `message.parts` as the handler discriminates them:
a `{type:"text"}` object, a `{type:"input_text"}` object, a plain
string, or any other object (no usable text). -/
inductive Part : Type where
  | text (s : String) : Part
  | inputText (s : String) : Part
  | str (s : String) : Part
  | other : Part
deriving DecidableEq

/-- The loop body of `makeTitleFromMessage`: first part that is a
text-typed object or a plain string. -/
def partFirstText : List Part → Option String
  | [] => none
  | .text s :: _ => some s
  | .inputText s :: _ => some s
  | .str s :: _ => some s
  | .other :: rest => partFirstText rest

/-- JavaScript `String(p)` for a single part value. -/
def jsStringOfPart : Part → String
  | .str s => s
  | _ => "[object Object]"

/-- `String(parts[0] ?? "")`. -/
def headString : List Part → String
  | [] => ""
  | p :: _ => jsStringOfPart p

/-- `makeTitleFromMessage` from `app/(chat)/api/chat/route.ts`:
first text-bearing part (or the string coercion of the head part),
trimmed, first 8 whitespace-separated words joined by single spaces,
falling back to a fixed default when empty.  Note: this variant has
no character-count truncation. -/
def makeTitleFromMessage (parts : List Part) (fallback : String := "New chat") : String :=
  let ft0 := (partFirstText parts).getD ""
  let firstText := if ft0 = "" then headString parts else ft0
  if firstText = "" then fallback
  else
    let words := joinWords ((splitWords firstText).take 8)
    if words = "" then fallback else words

/-! ## Data model -/

inductive Role : Type where
  | user : Role
  | assistant : Role
deriving DecidableEq

/-- A UI-shaped chat message (`ChatMessage`): id, role and content parts. -/
structure ChatMessage : Type where
  id : String
  role : Role
  parts : List Part
deriving DecidableEq

/-- One persisted message row. -/
structure DBMessage : Type where
  id : String
  chatId : String
  role : Role
  parts : List Part
  createdAt : Nat
deriving DecidableEq

/-- One persisted chat record. -/
structure Chat : Type where
  id : String
  userId : String
  title : String
  visibility : String
deriving DecidableEq

/-- The backing store.  Rows are kept in insertion order; message
insertion order coincides with creation order since every write stamps
the current time. -/
structure DB : Type where
  chats : List Chat
  messages : List DBMessage
deriving DecidableEq

/-- Modelled from the spec: `getChatById` of the external query layer
(`@/lib/db/queries`, out of repo) looks the conversation up by id. -/
def getChatById (db : DB) (id : String) : Option Chat :=
  db.chats.find? (fun c => c.id = id)

/-- Modelled from the spec: `saveChat` appends one chat record. -/
def saveChat (db : DB) (c : Chat) : DB :=
  { db with chats := db.chats ++ [c] }

/-- Modelled from the spec: `saveMessages` appends message rows. -/
def saveMessages (db : DB) (ms : List DBMessage) : DB :=
  { db with messages := db.messages ++ ms }

/-- Modelled from the spec: `getMessagesByChatId` returns all messages
of the conversation in creation order. -/
def getMessagesByChatId (db : DB) (id : String) : List DBMessage :=
  db.messages.filter (fun m => m.chatId = id)

/-- Modelled from the spec: `deleteChatById` removes the conversation
and its messages, returning the removed records. -/
def deleteChatById (db : DB) (id : String) : DB :=
  { chats := db.chats.filter (fun c => c.id ≠ id),
    messages := db.messages.filter (fun m => m.chatId ≠ id) }

/-- Modelled from the spec: `convertToUIMessages` (external
`@/lib/utils`) converts persisted rows into the UI message shape,
preserving id, role, parts and order. -/
def convertToUIMessages (ms : List DBMessage) : List ChatMessage :=
  ms.map (fun m => { id := m.id, role := m.role, parts := m.parts })

/-! ## The outbound workflow call -/

/-- What the single `fetch` to the workflow endpoint does: either it
throws a transport-level error, or it yields a response with a status,
status text, content type, body text (`res.text()`), and, when the
body parses as JSON, the parsed value (`res.json()`; `none` models a
parse failure, which the code maps to `{}`). -/
inductive FetchOutcome : Type where
  | transportError : FetchOutcome
  | response (status : Nat) (statusText : String) (contentType : String)
      (bodyText : String) (json? : Option JVal) : FetchOutcome

/-- `res.ok`: status in the 2xx range. -/
def resOk (status : Nat) : Bool :=
  200 ≤ status && status < 300

def noReplyPlaceholder : String := "I didn’t receive a reply from the agent."

def transportApology : String := "Sorry — I couldn’t reach the agent right now."

/-- `` `Sorry — the workflow returned ${res.status} ${res.statusText}.` `` -/
def statusMessage (status : Nat) (statusText : String) : String :=
  "Sorry — the workflow returned " ++ toString status ++ " " ++ statusText ++ "."

/-- The JSON branch of reply extraction:
`String(data.output ?? data.answer ?? data.text ?? data.message ?? "") || JSON.stringify(data)`. -/
def jsonAnswer (data : JVal) : String :=
  let a := jsToString ((coalesce
    [getKey data "output", getKey data "answer",
     getKey data "text", getKey data "message"]).getD (.jstr ""))
  if a = "" then stringify data else a

/-- The JSON branch as the code runs it: when the parsed body is the
JSON literal `null`, the property access `data.output` throws a
`TypeError` (property access on `null`), modelled by `none`; the
`.catch` on `res.json()` only guards parse failures, not a parsed
`null`.  Every other parsed value goes through the `??`-chain. -/
def jsonAnswer? (data : JVal) : Option String :=
  match data with
  | .jnull => none
  | _ => some (jsonAnswer data)

/-- Reply text before the empty-placeholder substitution: JSON bodies
go through the key-fallback chain (with `none` propagating the
null-body `TypeError`), anything else is the literal body. -/
def rawAnswer? (contentType bodyText : String) (json? : Option JVal) : Option String :=
  if jsIncludes contentType "application/json" then
    jsonAnswer? (json?.getD (.jobj []))
  else
    some bodyText

/-- The reply text the handler computes inside the `try` for a
success-status response, after the `if (!answer)` placeholder
substitution; `none` is the thrown `TypeError`, which the outer catch
of the execute body turns into the apology path. -/
def extractAnswer? (contentType bodyText : String) (json? : Option JVal) : Option String :=
  (rawAnswer? contentType bodyText json?).map
    (fun a => if a = "" then noReplyPlaceholder else a)

/-- The JSON reply-extraction rule as the specification words it:
the string value of the first key among `output`, `answer`, `text`,
`message` that is present with a non-null value, and the JSON
serialization of the entire body when no key matches or the matched
value renders as the empty string. -/
def specJsonReply (data : JVal) : String :=
  match coalesce [getKey data "output", getKey data "answer",
      getKey data "text", getKey data "message"] with
  | some v => if jsToString v = "" then stringify data else jsToString v
  | none => stringify data

/-! ## The streaming execute body -/

/-- Events written to the UI message stream writer. -/
inductive WriterEvent : Type where
  | messageStart (id : String) : WriterEvent
  | textDelta (delta : String) (id : String) : WriterEvent
  | messageEnd (id : String) : WriterEvent
  | finish : WriterEvent
deriving DecidableEq

/-- The `execute` body of `createUIMessageStream`: announces the
assistant message, performs the fetch, and on each path (success
extraction, non-success status, caught error — a transport throw or
the null-body `TypeError` thrown during extraction) writes the reply
text, ends the message and finalizes the writer.  Returns the writer
event sequence and the accumulated `assistantFullText`. -/
def executeStream (outcome : FetchOutcome) (msgId : String) :
    List WriterEvent × String :=
  match outcome with
  | .transportError =>
      ([.messageStart msgId, .textDelta transportApology msgId,
        .messageEnd msgId, .finish], transportApology)
  | .response status statusText contentType bodyText json? =>
      if resOk status then
        match extractAnswer? contentType bodyText json? with
        | some answer =>
            ([.messageStart msgId, .textDelta answer msgId,
              .messageEnd msgId, .finish], answer)
        | none =>
            ([.messageStart msgId, .textDelta transportApology msgId,
              .messageEnd msgId, .finish], transportApology)
      else
        let msg := if bodyText = "" then statusMessage status statusText else bodyText
        ([.messageStart msgId, .textDelta msg msgId,
          .messageEnd msgId, .finish], msg)

/-! ## The POST handler -/

inductive UserType : Type where
  | guest : UserType
  | regular : UserType
deriving DecidableEq

/-- The authenticated session, as far as the handler reads it. -/
structure Session : Type where
  userId : String
  userType : UserType
deriving DecidableEq

/-- The validated POST body (`postRequestBodySchema`). -/
structure PostBody : Type where
  id : String
  message : ChatMessage
  selectedChatModel : String
  selectedVisibilityType : String
deriving DecidableEq

/-- The JSON payload of the outbound POST to the workflow endpoint. -/
structure FetchPayload : Type where
  chatId : String
  model : String
  message : ChatMessage
  history : List ChatMessage
  userId : String
deriving DecidableEq

/-- Externally observable side effects of one request, in order. -/
inductive Event : Type where
  | evSaveChat (c : Chat) : Event
  | evSaveMessages (ms : List DBMessage) : Event
  | evFetch (p : FetchPayload) : Event
deriving DecidableEq

inductive ErrorCode : Type where
  | bad_request : ErrorCode
  | unauthorized : ErrorCode
  | rate_limit : ErrorCode
  | forbidden : ErrorCode
  | offline : ErrorCode
deriving DecidableEq

/-- What the handler hands back to the caller: a `ChatSDKError`
response, or the streamed success response (status 200 wrapping the
writer events). -/
inductive ResponseKind : Type where
  | error (code : ErrorCode) : ResponseKind
  | stream (status : Nat) (events : List WriterEvent) : ResponseKind
deriving DecidableEq

structure PostResult : Type where
  response : ResponseKind
  db : DB
  trace : List Event
deriving DecidableEq

/-- The request environment: the external collaborators' answers.
`messageCount` is what `getMessageCountByUserId` returns for the
trailing 24-hour window, `quotaOf` is `entitlementsByUserType[t].maxMessagesPerDay`,
`genId` is the UUID `generateUUID` mints for the assistant message. -/
structure Env : Type where
  session? : Option Session
  messageCount : Nat
  quotaOf : UserType → Nat
  webhookUrl? : Option String
  outcome : FetchOutcome
  now : Nat
  genId : String

/-- Steps 5–7 of the handler, after the guards have passed:
persist the user message, read the history back, require the webhook
URL, run the stream (which performs the fetch) and let `onFinish`
persist the assistant message. -/
def postCore (env : Env) (body : PostBody) (session : Session)
    (db : DB) (tr : List Event) : PostResult :=
  let userMsg : DBMessage :=
    { id := body.message.id, chatId := body.id, role := .user,
      parts := body.message.parts, createdAt := env.now }
  let db1 := saveMessages db [userMsg]
  let tr1 := tr ++ [.evSaveMessages [userMsg]]
  let history := convertToUIMessages (getMessagesByChatId db1 body.id) ++ [body.message]
  match env.webhookUrl? with
  | none => { response := .error .offline, db := db1, trace := tr1 }
  | some _ =>
      let payload : FetchPayload :=
        { chatId := body.id, model := body.selectedChatModel,
          message := body.message, history := history, userId := session.userId }
      let run := executeStream env.outcome env.genId
      let assistantMsg : DBMessage :=
        { id := env.genId, chatId := body.id, role := .assistant,
          parts := [.text run.2], createdAt := env.now }
      { response := .stream 200 run.1,
        db := saveMessages db1 [assistantMsg],
        trace := tr1 ++ [.evFetch payload, .evSaveMessages [assistantMsg]] }

/-- `POST` from `app/(chat)/api/chat/route.ts`.  `body?` is the result
of schema validation (`none` = parse/validation failure). -/
def POST (env : Env) (body? : Option PostBody) (db : DB) : PostResult :=
  match body? with
  | none => { response := .error .bad_request, db := db, trace := [] }
  | some body =>
    match env.session? with
    | none => { response := .error .unauthorized, db := db, trace := [] }
    | some session =>
      if env.messageCount > env.quotaOf session.userType then
        { response := .error .rate_limit, db := db, trace := [] }
      else
        match getChatById db body.id with
        | some chat =>
            if chat.userId ≠ session.userId then
              { response := .error .forbidden, db := db, trace := [] }
            else
              postCore env body session db []
        | none =>
            let c : Chat :=
              { id := body.id, userId := session.userId,
                title := makeTitleFromMessage body.message.parts,
                visibility := body.selectedVisibilityType }
            postCore env body session (saveChat db c) [.evSaveChat c]

/-! ## The DELETE handler (draft variant carrying it) -/

inductive DeleteResponse : Type where
  | error (code : ErrorCode) : DeleteResponse
  | ok : DeleteResponse
deriving DecidableEq

structure DeleteResult : Type where
  response : DeleteResponse
  db : DB
deriving DecidableEq

/-- `DELETE` from the draft variant: requires the `id` query
parameter and a session, then compares `chat?.userId !== session.user.id`
— a missing chat record compares as `undefined` and fails the check. -/
def DELETErun (session? : Option Session) (id? : Option String) (db : DB) : DeleteResult :=
  match id? with
  | none => { response := .error .bad_request, db := db }
  | some id =>
    match session? with
    | none => { response := .error .unauthorized, db := db }
    | some session =>
      match getChatById db id with
      | none => { response := .error .forbidden, db := db }
      | some chat =>
          if chat.userId ≠ session.userId then
            { response := .error .forbidden, db := db }
          else
            { response := .ok, db := deleteChatById db id }

/-! ## Observations over traces -/

/-- Does the event persist the user message with the given id? -/
def savesUserMsg (mid : String) : Event → Bool
  | .evSaveMessages ms => ms.any (fun m => m.id = mid && m.role = Role.user)
  | _ => false

def isFetch : Event → Bool
  | .evFetch _ => true
  | _ => false

/-- Total number of user-role rows with the given id written across
the whole trace. -/
def userMsgSaveCount (mid : String) (tr : List Event) : Nat :=
  (tr.map (fun e =>
    match e with
    | .evSaveMessages ms =>
        (ms.filter (fun m => m.id = mid && m.role = Role.user)).length
    | _ => 0)).sum

/-- The history carried by the first outbound fetch of the trace. -/
def fetchedHistory : List Event → Option (List ChatMessage)
  | [] => none
  | .evFetch p :: _ => some p.history
  | _ :: tr => fetchedHistory tr

/-! ## Concrete fixtures for witnesses and counterexamples -/

def sessionA : Session := { userId := "u1", userType := .regular }

def envA : Env :=
  { session? := some sessionA, messageCount := 0, quotaOf := fun _ => 5,
    webhookUrl? := some "https://wh.example", outcome := .transportError,
    now := 7, genId := "gen-1" }

def bodyA : PostBody :=
  { id := "c1",
    message := { id := "m1", role := .user, parts := [Part.text "hello world"] },
    selectedChatModel := "model-1", selectedVisibilityType := "private" }

def dbEmpty : DB := { chats := [], messages := [] }

def chatOther : Chat :=
  { id := "c1", userId := "u2", title := "other", visibility := "private" }

def longWord : String := String.mk (List.replicate 81 'a')

def bodyLong : PostBody :=
  { bodyA with message := { id := "m1", role := .user, parts := [Part.text longWord] } }

def bodyOther : PostBody :=
  { bodyA with message := { id := "m1", role := .user, parts := [Part.other] } }

/-! ## Helper lemmas -/

/-- Once the guards have passed, the handler answers either with the
missing-configuration error or with the 200 stream — never with a
guard error. -/
theorem postCore_response_cases (env : Env) (b : PostBody) (s : Session)
    (db : DB) (tr : List Event) :
    (postCore env b s db tr).response = .error .offline ∨
    (postCore env b s db tr).response =
      .stream 200 (executeStream env.outcome env.genId).1 := by
  unfold postCore
  cases env.webhookUrl? <;> simp

/-! ## Claim theorems -/

/-- Claim C1: a POST request failing body validation, authentication,
the ownership guard, or the rate-limit check returns the matching
error with the database untouched and an empty effect trace — no chat
record created, no message row written, no outbound fetch. -/
theorem c1_guard_failures_short_circuit (env : Env) (body? : Option PostBody) (db : DB) :
    (body? = none →
      POST env body? db = { response := .error .bad_request, db := db, trace := [] })
  ∧ (∀ b, body? = some b → env.session? = none →
      POST env body? db = { response := .error .unauthorized, db := db, trace := [] })
  ∧ (∀ b s, body? = some b → env.session? = some s →
      env.quotaOf s.userType < env.messageCount →
      POST env body? db = { response := .error .rate_limit, db := db, trace := [] })
  ∧ (∀ b s c, body? = some b → env.session? = some s →
      env.messageCount ≤ env.quotaOf s.userType →
      getChatById db b.id = some c → c.userId ≠ s.userId →
      POST env body? db = { response := .error .forbidden, db := db, trace := [] }) := by
  refine ⟨fun h => by subst h; rfl,
    fun b hb hs => by subst hb; simp [POST, hs],
    fun b s hb hs hq => by subst hb; simp [POST, hs, hq],
    fun b s c hb hs hq hc hne => by
      subst hb
      simp [POST, hs, hc, Nat.not_lt.mpr hq, hne]⟩

/-- Witness for C1: a caller over quota is rejected with `rate_limit`
and nothing is mutated. -/
theorem c1_guard_failures_short_circuit_witness :
    POST { envA with messageCount := 9 } (some bodyA) dbEmpty =
      { response := .error .rate_limit, db := dbEmpty, trace := [] } :=
  (c1_guard_failures_short_circuit { envA with messageCount := 9 }
    (some bodyA) dbEmpty).2.2.1 bodyA sessionA rfl rfl (by decide)

/-- Claim C9: the rate-limit guard rejects exactly when the trailing
24-hour count strictly exceeds the tier quota; at a count equal to the
quota the submission is admitted and the message is persisted. -/
theorem c9_rate_limit_is_strict (env : Env) (b : PostBody) (db : DB) (s : Session)
    (hs : env.session? = some s) :
    ((POST env (some b) db).response = .error .rate_limit ↔
      env.quotaOf s.userType < env.messageCount)
  ∧ (env.messageCount = env.quotaOf s.userType →
      getChatById db b.id = none →
      userMsgSaveCount b.message.id (POST env (some b) db).trace = 1) := by
  constructor
  · constructor
    · intro h
      by_cases hq : env.quotaOf s.userType < env.messageCount
      · exact hq
      · exfalso
        simp only [POST, hs, if_neg hq] at h
        cases hc : getChatById db b.id with
        | some chat =>
            rw [hc] at h
            by_cases ho : chat.userId = s.userId
            · simp only [ho, ne_eq, not_true_eq_false, if_false] at h
              rcases postCore_response_cases env b s db [] with hco | hco <;>
                rw [hco] at h <;> simp at h
            · simp only [ne_eq, ho, not_false_eq_true, if_true] at h
              simp at h
        | none =>
            rw [hc] at h
            rcases postCore_response_cases env b s (saveChat db _) _ with hco | hco <;>
              rw [hco] at h <;> simp at h
    · intro h
      simp [POST, hs, h]
  · intro hq hc
    have hq2 : ¬ env.quotaOf s.userType < env.messageCount := by omega
    simp only [POST, hs, if_neg hq2, hc]
    unfold postCore
    cases env.webhookUrl? <;>
      simp [userMsgSaveCount, saveMessages, getMessagesByChatId, convertToUIMessages]

/-- Witness for C9: with a quota of 5 and a trailing count of exactly
5, the submission is not rate limited and the user message is written. -/
theorem c9_rate_limit_is_strict_witness :
    ¬ ((POST { envA with messageCount := 5 } (some bodyA) dbEmpty).response =
        .error .rate_limit)
  ∧ userMsgSaveCount bodyA.message.id
      (POST { envA with messageCount := 5 } (some bodyA) dbEmpty).trace = 1 := by
  have h := c9_rate_limit_is_strict { envA with messageCount := 5 } bodyA dbEmpty
    sessionA rfl
  exact ⟨fun hr => by have := h.1.mp hr; revert this; decide,
    h.2 (by decide) (by decide)⟩

/-- Claim C8: on each of the three execute paths — successful
extraction, non-success upstream status, caught transport error — the
event sequence is non-empty, ends with the finalization of the writer,
and finalizes exactly once, so the output channel is never left
half-open. -/
theorem c8_writer_finalized_on_every_path (o : FetchOutcome) (mid : String) :
    (executeStream o mid).1 ≠ []
  ∧ ((executeStream o mid).1).getLast? = some WriterEvent.finish
  ∧ (((executeStream o mid).1).filter (fun e => e = WriterEvent.finish)).length = 1 := by
  cases o with
  | transportError => exact ⟨by simp [executeStream], by simp [executeStream],
      by simp [executeStream]⟩
  | response status stx ct bt j =>
      by_cases h : resOk status = true
      · cases hext : extractAnswer? ct bt j with
        | some a => exact ⟨by simp [executeStream, h, hext],
            by simp [executeStream, h, hext], by simp [executeStream, h, hext]⟩
        | none => exact ⟨by simp [executeStream, h, hext],
            by simp [executeStream, h, hext], by simp [executeStream, h, hext]⟩
      · exact ⟨by simp [executeStream, h], by simp [executeStream, h],
          by simp [executeStream, h]⟩

/-- Claim C10: an authenticated DELETE for a conversation id with no
record behind it answers `forbidden` (the missing record's owner reads
as `undefined` and fails the ownership comparison) and deletes
nothing. -/
theorem c10_delete_missing_chat_forbidden (s : Session) (i : String) (db : DB)
    (hchat : getChatById db i = none) :
    DELETErun (some s) (some i) db = { response := .error .forbidden, db := db } := by
  simp [DELETErun, hchat]

/-- Witness for C10: deleting an id absent from an empty store yields
`forbidden` and leaves the store unchanged. -/
theorem c10_delete_missing_chat_forbidden_witness :
    DELETErun (some sessionA) (some "no-such-chat") dbEmpty =
      { response := .error .forbidden, db := dbEmpty } :=
  c10_delete_missing_chat_forbidden sessionA "no-such-chat" dbEmpty (by decide)

/-- Converted rows whose underlying ids all differ from `mid` never
survive an id filter. -/
theorem convert_filter_id_nil (l : List DBMessage) (mid : String)
    (h : ∀ m ∈ l, m.id ≠ mid) :
    (convertToUIMessages l).filter (fun m => m.id = mid) = [] := by
  induction l with
  | nil => rfl
  | cons a l ih =>
      have ha := h a (by simp)
      simp only [convertToUIMessages, List.map_cons, List.filter_cons]
      simp only [convertToUIMessages] at ih
      simp [ha, ih fun m hm => h m (by simp [hm])]

/-- Claim C2: once all guards pass, the user's message is written
exactly once, that write precedes the outbound fetch in the effect
trace, and the row is present in the final store for every fetch
outcome, transport failure included. -/
theorem c2_user_message_persisted_once_before_fetch
    (env : Env) (b : PostBody) (db : DB) (s : Session) (u : String)
    (hs : env.session? = some s)
    (hq : env.messageCount ≤ env.quotaOf s.userType)
    (hown : ∀ c, getChatById db b.id = some c → c.userId = s.userId)
    (hu : env.webhookUrl? = some u) :
    userMsgSaveCount b.message.id (POST env (some b) db).trace = 1
  ∧ (POST env (some b) db).trace.any isFetch = true
  ∧ ((POST env (some b) db).trace.takeWhile (fun e => !isFetch e)).any
      (savesUserMsg b.message.id) = true
  ∧ ((POST env (some b) db).db.messages.filter
      (fun m => m.id = b.message.id && m.role = Role.user)).length =
    (db.messages.filter
      (fun m => m.id = b.message.id && m.role = Role.user)).length + 1 := by
  have hq2 : ¬ env.quotaOf s.userType < env.messageCount := by omega
  cases hc : getChatById db b.id with
  | some chat =>
      have ho := hown chat hc
      simp only [POST, hs, if_neg hq2, hc, ho, ne_eq, not_true_eq_false, if_false]
      unfold postCore
      rw [hu]
      simp [userMsgSaveCount, isFetch, savesUserMsg, saveMessages,
        List.filter_append]
  | none =>
      simp only [POST, hs, if_neg hq2, hc]
      unfold postCore
      rw [hu]
      simp [userMsgSaveCount, isFetch, savesUserMsg, saveMessages, saveChat,
        List.filter_append]

/-- Witness for C2: a concrete passing submission with a transport
failure downstream still persists the user message once, before the
fetch. -/
theorem c2_user_message_persisted_once_before_fetch_witness :
    userMsgSaveCount bodyA.message.id (POST envA (some bodyA) dbEmpty).trace = 1
  ∧ (POST envA (some bodyA) dbEmpty).trace.any isFetch = true
  ∧ ((POST envA (some bodyA) dbEmpty).trace.takeWhile (fun e => !isFetch e)).any
      (savesUserMsg bodyA.message.id) = true
  ∧ ((POST envA (some bodyA) dbEmpty).db.messages.filter
      (fun m => m.id = bodyA.message.id && m.role = Role.user)).length =
    (dbEmpty.messages.filter
      (fun m => m.id = bodyA.message.id && m.role = Role.user)).length + 1 :=
  c2_user_message_persisted_once_before_fetch envA bodyA dbEmpty sessionA
    "https://wh.example" rfl (by decide)
    (fun c hc => by simp [getChatById, dbEmpty] at hc) rfl

/-- Claim C5 counterexample: on a fresh conversation the history
forwarded to the workflow carries the new user message twice — once
read back from the store it was just written to, once appended — so
it does not appear exactly once. -/
theorem c5_history_counterexample :
    fetchedHistory (POST envA (some bodyA) dbEmpty).trace =
      some [bodyA.message, bodyA.message]
  ∧ (((fetchedHistory (POST envA (some bodyA) dbEmpty).trace).getD []).filter
      (fun m => m.id = bodyA.message.id)).length ≠ 1 := by
  constructor
  · decide
  · decide

/-- Claim C5 (amended): the forwarded history is the conversation's
messages in creation order — which at the moment of the read already
include the just-persisted user message — with the new user message
appended once more, so the new message appears exactly twice. -/
theorem c5_amended_history_duplicates_new_message
    (env : Env) (b : PostBody) (db : DB) (s : Session) (u : String)
    (hs : env.session? = some s)
    (hq : env.messageCount ≤ env.quotaOf s.userType)
    (hown : ∀ c, getChatById db b.id = some c → c.userId = s.userId)
    (hu : env.webhookUrl? = some u)
    (hfresh : ∀ m ∈ db.messages, m.id ≠ b.message.id) :
    fetchedHistory (POST env (some b) db).trace =
      some (convertToUIMessages (getMessagesByChatId db b.id ++
        [{ id := b.message.id, chatId := b.id, role := .user,
           parts := b.message.parts, createdAt := env.now }]) ++ [b.message])
  ∧ (((fetchedHistory (POST env (some b) db).trace).getD []).filter
      (fun m => m.id = b.message.id)).length = 2 := by
  have hq2 : ¬ env.quotaOf s.userType < env.messageCount := by omega
  have hnil : (convertToUIMessages (getMessagesByChatId db b.id)).filter
      (fun m => m.id = b.message.id) = [] :=
    convert_filter_id_nil _ _ (fun m hm =>
      hfresh m (List.mem_of_mem_filter hm))
  cases hc : getChatById db b.id with
  | some chat =>
      have ho := hown chat hc
      simp only [POST, hs, if_neg hq2, hc, ho, ne_eq, not_true_eq_false, if_false]
      unfold postCore
      rw [hu]
      simp only [fetchedHistory, getMessagesByChatId, saveMessages,
        List.filter_append, convertToUIMessages, List.map_append]
      constructor
      · simp [getMessagesByChatId]
      · simp only [List.filter_append, List.length_append, Option.getD_some]
        simp only [getMessagesByChatId, convertToUIMessages] at hnil
        simp [hnil]
  | none =>
      simp only [POST, hs, if_neg hq2, hc]
      unfold postCore
      rw [hu]
      simp only [fetchedHistory, getMessagesByChatId, saveMessages, saveChat,
        List.filter_append, convertToUIMessages, List.map_append]
      constructor
      · simp [getMessagesByChatId]
      · simp only [List.filter_append, List.length_append, Option.getD_some]
        simp only [getMessagesByChatId, convertToUIMessages] at hnil
        simp [hnil]

/-- Witness for C5 (amended): the concrete duplicated history. -/
theorem c5_amended_history_duplicates_new_message_witness :
    fetchedHistory (POST envA (some bodyA) dbEmpty).trace =
      some (convertToUIMessages (getMessagesByChatId dbEmpty bodyA.id ++
        [{ id := bodyA.message.id, chatId := bodyA.id, role := .user,
           parts := bodyA.message.parts, createdAt := envA.now }]) ++ [bodyA.message])
  ∧ (((fetchedHistory (POST envA (some bodyA) dbEmpty).trace).getD []).filter
      (fun m => m.id = bodyA.message.id)).length = 2 :=
  c5_amended_history_duplicates_new_message envA bodyA dbEmpty sessionA
    "https://wh.example" rfl (by decide)
    (fun c hc => by simp [getChatById, dbEmpty] at hc) rfl
    (fun m hm => by simp [dbEmpty] at hm)

/-- Claim C6 counterexample: a single 81-character word yields an
81-character title (no 80-character truncation is applied), and a
message whose only part bears no text yields the title
`[object Object]` instead of the fixed default. -/
theorem c6_title_counterexample :
    ((POST envA (some bodyLong) dbEmpty).db.chats.map Chat.title = [longWord]
      ∧ 80 < longWord.length)
  ∧ (POST envA (some bodyOther) dbEmpty).db.chats.map Chat.title =
      ["[object Object]"] := by
  refine ⟨⟨by decide, by decide⟩, by decide⟩

/-- Claim C6 (amended): a submission for an absent conversation id
creates exactly one chat record, owned by the caller; its title is
the first text-bearing part truncated to at most 8 whitespace-separated
words with no character-count truncation, and it is the fixed default
when the message has no parts at all. -/
theorem c6_amended_chat_creation
    (env : Env) (b : PostBody) (db : DB) (s : Session)
    (hs : env.session? = some s)
    (hq : env.messageCount ≤ env.quotaOf s.userType)
    (hc : getChatById db b.id = none) :
    (POST env (some b) db).db.chats =
      db.chats ++
        [{ id := b.id, userId := s.userId,
           title := makeTitleFromMessage b.message.parts,
           visibility := b.selectedVisibilityType }]
  ∧ ((POST env (some b) db).db.chats.filter (fun c => c.id = b.id)).length = 1
  ∧ (∀ t, partFirstText b.message.parts = some t → t ≠ "" →
      joinWords ((splitWords t).take 8) ≠ "" →
      makeTitleFromMessage b.message.parts = joinWords ((splitWords t).take 8))
  ∧ (b.message.parts = [] → makeTitleFromMessage b.message.parts = "New chat") := by
  have hq2 : ¬ env.quotaOf s.userType < env.messageCount := by omega
  have hchats : (POST env (some b) db).db.chats =
      db.chats ++
        [{ id := b.id, userId := s.userId,
           title := makeTitleFromMessage b.message.parts,
           visibility := b.selectedVisibilityType }] := by
    simp only [POST, hs, if_neg hq2, hc]
    unfold postCore
    cases env.webhookUrl? <;> simp [saveChat, saveMessages]
  have hnone : ∀ c ∈ db.chats, ¬ (c.id = b.id) := by
    intro c hcm
    have := List.find?_eq_none.mp hc c hcm
    simpa using this
  refine ⟨hchats, ?_, ?_, ?_⟩
  · rw [hchats]
    rw [List.filter_append]
    have : db.chats.filter (fun c => c.id = b.id) = [] :=
      List.filter_eq_nil_iff.mpr (fun c hcm => by simpa using hnone c hcm)
    simp [this]
  · intro t ht hne hw
    simp only [makeTitleFromMessage, ht, Option.getD_some, if_neg hne, hw]
    simp [hne, hw]
  · intro hp
    simp [makeTitleFromMessage, hp, partFirstText, headString]

/-- Witness for C6 (amended): the concrete created chat record. -/
theorem c6_amended_chat_creation_witness :
    (POST envA (some bodyA) dbEmpty).db.chats =
      dbEmpty.chats ++
        [{ id := bodyA.id, userId := sessionA.userId,
           title := makeTitleFromMessage bodyA.message.parts,
           visibility := bodyA.selectedVisibilityType }] :=
  (c6_amended_chat_creation envA bodyA dbEmpty sessionA rfl (by decide)
    (by decide)).1

/-- The code's `??`-chain extraction coincides with the extraction
rule as the specification words it. -/
theorem jsonAnswer_eq_spec (data : JVal) :
    jsonAnswer data = specJsonReply data := by
  unfold jsonAnswer specJsonReply
  cases h : coalesce [getKey data "output", getKey data "answer",
      getKey data "text", getKey data "message"] with
  | none => simp [jsToString]
  | some v => simp

/-- Claim C3 counterexample: a success-status JSON response whose body
is the JSON literal `null` is not delivered as the serialization of
the whole body (`null`) that the claim prescribes when no key yields a
non-empty string — the `data.output` access throws on the null body
and the caught error delivers the fixed transport apology instead. -/
theorem c3_reply_extraction_counterexample :
    (executeStream (.response 200 "OK" "application/json" "null"
      (some .jnull)) "gen-1").2 = transportApology
  ∧ (executeStream (.response 200 "OK" "application/json" "null"
      (some .jnull)) "gen-1").2 ≠ stringify .jnull := by
  constructor
  · decide
  · decide

/-- Claim C3 (amended): for success-status workflow responses, a JSON
body other than the literal `null` is reduced to the string value of
the first matching key in the fixed fallback order (`output`,
`answer`, `text`, `message`), with the whole body serialized when no
key yields a non-empty string (in particular a body of `answer: 42`
delivers `42`); a JSON body `null` makes the key access throw and the
caught error delivers the fixed transport apology; a non-JSON body is
delivered literally (body `hello` delivers `hello`); and an empty
extraction is replaced by the fixed no-reply placeholder. -/
theorem c3_amended_reply_extraction (mid statusText : String) (status : Nat)
    (hok : resOk status = true) :
    (∀ bodyText, (executeStream (.response status statusText "application/json"
        bodyText (some (.jobj [("answer", .jstr "42")]))) mid).2 = "42")
  ∧ (∀ ct bodyText data, jsIncludes ct "application/json" = true → data ≠ .jnull →
      (executeStream (.response status statusText ct bodyText (some data)) mid).2 =
        (if specJsonReply data = "" then noReplyPlaceholder else specJsonReply data))
  ∧ (∀ ct bodyText, jsIncludes ct "application/json" = true →
      (executeStream (.response status statusText ct bodyText (some .jnull)) mid).2 =
        transportApology)
  ∧ (∀ ct bodyText json?, jsIncludes ct "application/json" = false →
      (executeStream (.response status statusText ct bodyText json?) mid).2 =
        (if bodyText = "" then noReplyPlaceholder else bodyText))
  ∧ ((executeStream (.response status statusText "text/plain" "hello" none) mid).2
      = "hello")
  ∧ (∀ ct bodyText json?, rawAnswer? ct bodyText json? = some "" →
      (executeStream (.response status statusText ct bodyText json?) mid).2 =
        noReplyPlaceholder) := by
  have hj : jsIncludes "application/json" "application/json" = true := by decide
  have hja : jsonAnswer (JVal.jobj [("answer", JVal.jstr "42")]) = "42" := by decide
  have ht : jsIncludes "text/plain" "application/json" = false := by decide
  refine ⟨?_, ?_, ?_, ?_, ?_, ?_⟩
  · intro bodyText
    simp [executeStream, hok, extractAnswer?, rawAnswer?, jsonAnswer?, hj, hja]
  · intro ct bodyText data hct hnn
    have hsome : jsonAnswer? data = some (jsonAnswer data) := by
      cases data
      case jnull => exact absurd rfl hnn
      all_goals rfl
    simp [executeStream, hok, extractAnswer?, rawAnswer?, hct, hsome,
      jsonAnswer_eq_spec]
  · intro ct bodyText hct
    simp [executeStream, hok, extractAnswer?, rawAnswer?, jsonAnswer?, hct]
  · intro ct bodyText json? hct
    simp [executeStream, hok, extractAnswer?, rawAnswer?, hct]
  · simp [executeStream, hok, extractAnswer?, rawAnswer?, jsonAnswer?, ht]
  · intro ct bodyText json? h
    simp [executeStream, hok, extractAnswer?, h]

/-- Witness for C3 (amended): the claim's own JSON example delivers
`42`. -/
theorem c3_amended_reply_extraction_witness :
    (executeStream (.response 200 "OK" "application/json" ""
      (some (.jobj [("answer", .jstr "42")]))) "gen-1").2 = "42" :=
  (c3_amended_reply_extraction "gen-1" "OK" 200 (by decide)).1 ""

/-- Claim C4: a transport-level fetch failure never surfaces: the
handler still answers with the 200-status streamed envelope whose
reply text is the fixed apology string, not an error response. -/
theorem c4_transport_error_apology
    (env : Env) (b : PostBody) (db : DB) (s : Session) (u : String)
    (hs : env.session? = some s)
    (hq : env.messageCount ≤ env.quotaOf s.userType)
    (hown : ∀ c, getChatById db b.id = some c → c.userId = s.userId)
    (hu : env.webhookUrl? = some u)
    (hout : env.outcome = .transportError) :
    (POST env (some b) db).response =
      .stream 200 [.messageStart env.genId, .textDelta transportApology env.genId,
        .messageEnd env.genId, .finish]
  ∧ ∀ code, (POST env (some b) db).response ≠ .error code := by
  have hq2 : ¬ env.quotaOf s.userType < env.messageCount := by omega
  have hresp : (POST env (some b) db).response =
      .stream 200 (executeStream env.outcome env.genId).1 := by
    cases hc : getChatById db b.id with
    | some chat =>
        have ho := hown chat hc
        simp only [POST, hs, if_neg hq2, hc, ho, ne_eq, not_true_eq_false, if_false]
        unfold postCore
        rw [hu]
    | none =>
        simp only [POST, hs, if_neg hq2, hc]
        unfold postCore
        rw [hu]
  rw [hresp, hout]
  exact ⟨by simp [executeStream], by simp⟩

/-- Witness for C4: the concrete transport-failure run still streams
the apology under a 200 status. -/
theorem c4_transport_error_apology_witness :
    (POST envA (some bodyA) dbEmpty).response =
      .stream 200 [.messageStart envA.genId, .textDelta transportApology envA.genId,
        .messageEnd envA.genId, .finish] :=
  (c4_transport_error_apology envA bodyA dbEmpty sessionA "https://wh.example" rfl
    (by decide) (fun c hc => by simp [getChatById, dbEmpty] at hc) rfl rfl).1

/-- Claim C7: on a non-success upstream status the delivered reply is
the response body when non-empty and otherwise the synthesized message
naming the returned status (for 503 it names `503`); no transport
stack trace is delivered. -/
theorem c7_non_success_status_reply (mid statusText ct bodyText : String)
    (status : Nat) (j : Option JVal) (hbad : resOk status = false) :
    (bodyText ≠ "" →
      (executeStream (.response status statusText ct bodyText j) mid).2 = bodyText)
  ∧ (bodyText = "" →
      (executeStream (.response status statusText ct bodyText j) mid).2 =
        statusMessage status statusText)
  ∧ ((executeStream (.response 503 "Service Unavailable" ct "" j) mid).2 =
        "Sorry — the workflow returned 503 Service Unavailable."
      ∧ jsIncludes "Sorry — the workflow returned 503 Service Unavailable." "503"
          = true) := by
  have h503 : resOk 503 = false := by decide
  refine ⟨?_, ?_, ?_⟩
  · intro h
    simp [executeStream, hbad, h]
  · intro h
    simp [executeStream, hbad, h]
  · constructor
    · simp only [executeStream, h503]
      · simp only [Bool.false_eq_true, if_false, if_pos rfl]
        decide
    · decide

/-- Witness for C7: a 503 with a non-empty body delivers that body. -/
theorem c7_non_success_status_reply_witness :
    (executeStream (.response 503 "Service Unavailable" "text/plain"
      "upstream exploded" none) "gen-1").2 = "upstream exploded" :=
  (c7_non_success_status_reply "gen-1" "Service Unavailable" "text/plain"
    "upstream exploded" 503 none (by decide)).1 (by decide)

end TlcChat
